import Mathlib

/-!
Shallow embedding of the ShopEasy service worker (`sw.js`, main variant) and
verification of the spec's claims about it.

The embedding models:
- the module-level constants (version tag, cache names, install manifest);
- the Cache Storage as a list of named caches, each a list of URL-keyed
  response entries, with `caches.open` / `caches.match` / `cache.put` /
  `cache.addAll` semantics;
- the network as a function from URL to `Option Response` (`none` models a
  rejected fetch, `some r` a resolved response of any status);
- each fetch strategy (`networkFirst`, `cacheFirst`, `imageCacheFirst`,
  `networkFirstWithCacheUpdate`) as a state-passing function returning the
  handler outcome, the updated cache storage, and the number of network
  fetches performed;
- the install / activate / message / push handlers.
-/

namespace ShopEasy

/-- Version tag embedded in the static cache name (`APP_VERSION` in the source). -/
def APP_VERSION : String := "1.0.1"

/-- Name of the static-generation cache (`CACHE_NAME` in the source). -/
def CACHE_NAME : String := "shopeasy-v" ++ APP_VERSION

/-- Name of the dynamic cache (`DYNAMIC_CACHE` in the source). -/
def DYNAMIC_CACHE : String := "shopeasy-dynamic-v1"

/-- Install manifest (`STATIC_ASSETS` in the source). -/
def STATIC_ASSETS : List String :=
  ["/", "/index.html", "logo.png", "manifest.json",
   "https://cdnjs.cloudflare.com/ajax/libs/font-awesome/6.4.0/css/all.min.css",
   "https://www.gstatic.com/firebasejs/10.7.1/firebase-app.js",
   "https://www.gstatic.com/firebasejs/10.7.1/firebase-firestore.js"]

/-- Auxiliary recursion for `strContains`: does `pat` occur as a contiguous
run inside the list? Models JavaScript `String.prototype.includes`. -/
def containsAux (pat : List Char) : List Char → Bool
  | [] => pat.isPrefixOf ([] : List Char)
  | a :: rest => pat.isPrefixOf (a :: rest) || containsAux pat rest

/-- Substring test modelling JavaScript `s.includes(pat)` (also an unanchored
regex match against a literal pattern). -/
def strContains (s pat : String) : Bool := containsAux pat.data s.data

/-- Suffix test modelling an end-anchored regex such as `/\.css$/` applied to
the full URL string. -/
def strEndsWith (s suf : String) : Bool := suf.data.isSuffixOf s.data

/-- Captured response snapshot: status, content type and body. JavaScript
`Response.ok` is modelled by `Response.ok` below. -/
structure Response where
  status : Nat
  contentType : String
  body : String
deriving DecidableEq, Repr

/-- JavaScript `response.ok`: status in the inclusive range 200..299. -/
def Response.ok (r : Response) : Bool := decide (200 ≤ r.status) && decide (r.status ≤ 299)

/-- Request descriptor derived from an intercepted request: method, absolute
URL, hostname, and the value of the `Accept` header when present. -/
structure RequestDescriptor where
  method : String
  url : String
  hostname : String
  accept : Option String
deriving DecidableEq, Repr

/-- Accept-header test from the fetch listener:
`event.request.headers.get('Accept')?.includes('text/html')`. -/
def acceptsHtml (r : RequestDescriptor) : Bool :=
  match r.accept with
  | some a => strContains a "text/html"
  | none => false

/-- URL test from the fetch listener: `url.match(/\.(css|js|woff|woff2)$/)`. -/
def isStaticAssetUrl (u : String) : Bool :=
  strEndsWith u ".css" || strEndsWith u ".js" || strEndsWith u ".woff" || strEndsWith u ".woff2"

/-- URL test from the fetch listener: `url.match(/\.(png|jpg|jpeg|gif|svg|webp)$/)`. -/
def isImageUrl (u : String) : Bool :=
  strEndsWith u ".png" || strEndsWith u ".jpg" || strEndsWith u ".jpeg" ||
  strEndsWith u ".gif" || strEndsWith u ".svg" || strEndsWith u ".webp"

/-- Hostname test from the fetch listener:
`url.hostname.includes('firestore.googleapis.com') || url.hostname.includes('firebasestorage.googleapis.com')`. -/
def isFirebaseHost (h : String) : Bool :=
  strContains h "firestore.googleapis.com" || strContains h "firebasestorage.googleapis.com"

/-- The five possible dispositions of the fetch listener. -/
inductive Strategy where
  | bypass
  | networkFirst
  | cacheFirst
  | imageCacheFirst
  | networkFirstWithCacheUpdate
deriving DecidableEq, Repr

/-- Strategy Router: the classification performed by the source's fetch event
listener, in its textual order (non-GET bypass, then the if/else-if chain). -/
def classify (r : RequestDescriptor) : Strategy :=
  if r.method ≠ "GET" then Strategy.bypass
  else if acceptsHtml r then Strategy.networkFirst
  else if isStaticAssetUrl r.url then Strategy.cacheFirst
  else if isImageUrl r.url then Strategy.imageCacheFirst
  else if isFirebaseHost r.hostname then Strategy.networkFirstWithCacheUpdate
  else Strategy.networkFirst

/-- Modelled from the spec's router description (§4.2), clause by clause in
the spec's priority order, for comparison with `classify`:
1. non-GET → bypass; 2. Accept HTML → Network-First; 3. stylesheet/script/font
extensions → Cache-First; 4. image extensions → Image-Cache-First;
5. remote-data-store hostnames → Network-First-With-Store-Update;
6. default → Network-First. -/
def routerSpec (r : RequestDescriptor) : Strategy :=
  if r.method ≠ "GET" then Strategy.bypass
  else if acceptsHtml r then Strategy.networkFirst
  else if isStaticAssetUrl r.url then Strategy.cacheFirst
  else if isImageUrl r.url then Strategy.imageCacheFirst
  else if isFirebaseHost r.hostname then Strategy.networkFirstWithCacheUpdate
  else Strategy.networkFirst

/-- One named cache: a name and its URL-keyed response entries. -/
structure NamedCache where
  name : String
  entries : List (String × Response)
deriving DecidableEq, Repr

/-- The Cache Storage: the list of named caches, in creation order. -/
abbrev CacheStorage := List NamedCache

/-- Lookup of a key inside one cache (`cache.match`). -/
def cacheLookup (c : NamedCache) (key : String) : Option Response :=
  (c.entries.find? (fun e => e.1 = key)).map (fun e => e.2)

/-- Lookup across all caches in storage order (`caches.match(request)`). -/
def cachesMatch (cs : CacheStorage) (key : String) : Option Response :=
  match cs with
  | [] => none
  | c :: rest =>
    match cacheLookup c key with
    | some r => some r
    | none => cachesMatch rest key

/-- Entry update inside one cache's entry list: `cache.put` replaces any
existing entry for the same key. -/
def putEntry (entries : List (String × Response)) (k : String) (v : Response) :
    List (String × Response) :=
  entries.filter (fun e => e.1 ≠ k) ++ [(k, v)]

/-- `caches.open(name)` — create the cache if absent, appending it in
creation order. -/
def openCache : CacheStorage → String → CacheStorage
  | [], name => [⟨name, []⟩]
  | c :: rest, name =>
    if c.name = name then c :: rest else c :: openCache rest name

/-- `caches.open(name).then(cache => cache.put(k, v))` — open-or-create the
named cache, then write the entry. -/
def cachePut : CacheStorage → String → String → Response → CacheStorage
  | [], name, k, v => [⟨name, [(k, v)]⟩]
  | c :: rest, name, k, v =>
    if c.name = name then ⟨c.name, putEntry c.entries k v⟩ :: rest
    else c :: cachePut rest name k v

/-- Network model: `none` is a rejected fetch, `some r` a resolved response
of any status. -/
abbrev Fetcher := String → Option Response

/-- Outcome of a strategy handler as seen by `event.respondWith`:
`Except.error ()` models the async function throwing (rejected promise),
`Except.ok none` models it resolving with `undefined` (no response), and
`Except.ok (some r)` a delivered response. -/
abbrev Outcome := Except Unit (Option Response)

deriving instance DecidableEq for Except

/-- Result of running one strategy: the handler outcome, the cache storage
afterwards, and how many network fetches were performed. -/
structure StratOut where
  outcome : Outcome
  caches : CacheStorage
  fetches : Nat
deriving DecidableEq, Repr

/-- `networkFirst` from the source: fetch; on success put the clone into the
dynamic cache unconditionally and return the response; on failure fall back
to any cache entry, then (for HTML requests) to the cached root document,
else rethrow. -/
def networkFirst (f : Fetcher) (cs : CacheStorage) (req : RequestDescriptor) : StratOut :=
  match f req.url with
  | some resp =>
    { outcome := Except.ok (some resp),
      caches := cachePut cs DYNAMIC_CACHE req.url resp,
      fetches := 1 }
  | none =>
    match cachesMatch cs req.url with
    | some cached => { outcome := Except.ok (some cached), caches := cs, fetches := 1 }
    | none =>
      if acceptsHtml req then
        { outcome := Except.ok (cachesMatch cs "/"), caches := cs, fetches := 1 }
      else
        { outcome := Except.error (), caches := cs, fetches := 1 }

/-- Fallback response for stylesheet requests:
`new Response('', unit with Content-Type text/css)` (status defaults to 200). -/
def cssFallback : Response :=
  { status := 200, contentType := "text/css", body := "" }

/-- Fallback response for script requests:
`new Response('console.log("Offline mode");', Content-Type application/javascript)`. -/
def jsFallback : Response :=
  { status := 200, contentType := "application/javascript",
    body := "console.log(\"Offline mode\");" }

/-- `cacheFirst` from the source: serve a cache hit without fetching; on miss
fetch, cache only `ok` responses into the dynamic cache, and return the
response; on network failure return the stylesheet/script fallback by URL
suffix, else rethrow. -/
def cacheFirst (f : Fetcher) (cs : CacheStorage) (req : RequestDescriptor) : StratOut :=
  match cachesMatch cs req.url with
  | some cached => { outcome := Except.ok (some cached), caches := cs, fetches := 0 }
  | none =>
    match f req.url with
    | some resp =>
      if resp.ok then
        { outcome := Except.ok (some resp),
          caches := cachePut cs DYNAMIC_CACHE req.url resp,
          fetches := 1 }
      else
        { outcome := Except.ok (some resp), caches := cs, fetches := 1 }
    | none =>
      if strEndsWith req.url ".css" then
        { outcome := Except.ok (some cssFallback), caches := cs, fetches := 1 }
      else if strEndsWith req.url ".js" then
        { outcome := Except.ok (some jsFallback), caches := cs, fetches := 1 }
      else
        { outcome := Except.error (), caches := cs, fetches := 1 }

/-- Generated minimal vector placeholder from `imageCacheFirst`
(`new Response(placeholderSvg, Content-Type image/svg+xml)`). -/
def svgPlaceholder : Response :=
  { status := 200, contentType := "image/svg+xml",
    body := "<svg xmlns=\"http://www.w3.org/2000/svg\" width=\"200\" height=\"200\" viewBox=\"0 0 200 200\"><rect width=\"100%\" height=\"100%\" fill=\"#f0f0f0\"/><text x=\"50%\" y=\"50%\" text-anchor=\"middle\" dy=\".3em\" fill=\"#999\" font-family=\"sans-serif\" font-size=\"14\">Image</text></svg>" }

/-- URL test for the pinned-placeholder branch of `imageCacheFirst`:
`request.url.includes('placeholder') || request.url.includes('postimg.cc')`. -/
def isExternalPlaceholderUrl (u : String) : Bool :=
  strContains u "placeholder" || strContains u "postimg.cc"

/-- `imageCacheFirst` from the source: serve a cache hit without fetching; on
miss fetch, cache only `ok` responses; on network failure return
`caches.match('logo.png')` for external-placeholder URL patterns (which may
resolve with no response when `logo.png` is not cached), else the generated
SVG placeholder. -/
def imageCacheFirst (f : Fetcher) (cs : CacheStorage) (req : RequestDescriptor) : StratOut :=
  match cachesMatch cs req.url with
  | some cached => { outcome := Except.ok (some cached), caches := cs, fetches := 0 }
  | none =>
    match f req.url with
    | some resp =>
      if resp.ok then
        { outcome := Except.ok (some resp),
          caches := cachePut cs DYNAMIC_CACHE req.url resp,
          fetches := 1 }
      else
        { outcome := Except.ok (some resp), caches := cs, fetches := 1 }
    | none =>
      if isExternalPlaceholderUrl req.url then
        { outcome := Except.ok (cachesMatch cs "logo.png"), caches := cs, fetches := 1 }
      else
        { outcome := Except.ok (some svgPlaceholder), caches := cs, fetches := 1 }

/-- Empty JSON-array placeholder returned by `networkFirstWithCacheUpdate`
for firestore URLs with no cache entry. -/
def emptyJsonResponse : Response :=
  { status := 200, contentType := "application/json", body := "[]" }

/-- `networkFirstWithCacheUpdate` from the source: fetch; on success put the
clone into the dynamic cache unconditionally and return the response; on
failure fall back to the cache entry, then to an empty JSON array for
firestore URLs, else rethrow. -/
def networkFirstWithCacheUpdate (f : Fetcher) (cs : CacheStorage) (req : RequestDescriptor) :
    StratOut :=
  match f req.url with
  | some resp =>
    { outcome := Except.ok (some resp),
      caches := cachePut cs DYNAMIC_CACHE req.url resp,
      fetches := 1 }
  | none =>
    match cachesMatch cs req.url with
    | some cached => { outcome := Except.ok (some cached), caches := cs, fetches := 1 }
    | none =>
      if strContains req.url "firestore.googleapis.com" then
        { outcome := Except.ok (some emptyJsonResponse), caches := cs, fetches := 1 }
      else
        { outcome := Except.error (), caches := cs, fetches := 1 }

/-- `cache.addAll(urls)`: fetch every URL and write all entries as one batch
operation; if any fetch rejects, the whole operation rejects and no entry is
written. -/
def addAll (f : Fetcher) (cs : CacheStorage) (name : String) (urls : List String) :
    Except Unit CacheStorage :=
  if urls.all (fun u => (f u).isSome) then
    Except.ok (urls.foldl
      (fun acc u =>
        match f u with
        | some r => cachePut acc name u r
        | none => acc) cs)
  else Except.error ()

/-- Observable result of an install handler run: the cache storage left
behind, whether the static assets were all cached, whether `skipWaiting` was
requested, and whether the promise handed to `event.waitUntil` rejected
(a rejected promise makes the install attempt fail). -/
structure InstallOut where
  caches : CacheStorage
  assetsCached : Bool
  skipWaitingRequested : Bool
  rejected : Bool
deriving DecidableEq, Repr

/-- Install handler of the main service worker:
`caches.open(CACHE_NAME).then(cache => cache.addAll(STATIC_ASSETS)).then(() => self.skipWaiting()).catch(error => console.error(...))`.
The trailing `.catch` only logs, so the promise given to `event.waitUntil`
resolves even when `addAll` rejected. -/
def installP1 (f : Fetcher) (cs : CacheStorage) : InstallOut :=
  match addAll f (openCache cs CACHE_NAME) CACHE_NAME STATIC_ASSETS with
  | Except.ok cs2 =>
    { caches := cs2, assetsCached := true, skipWaitingRequested := true, rejected := false }
  | Except.error _ =>
    { caches := openCache cs CACHE_NAME, assetsCached := false,
      skipWaitingRequested := false, rejected := false }

/-- Static cache name of the sibling `sw.js` variant (same value, written as
one literal there). -/
def CACHE_NAME_SW : String := "shopeasy-v1.0.1"

/-- Install manifest of the sibling `sw.js` variant:
`[...STATIC_CACHE, ...EXTERNAL_RESOURCES]`. -/
def SW_ASSETS : List String :=
  ["/", "/index.html", "logo.png", "manifest.json"] ++
  ["https://cdnjs.cloudflare.com/ajax/libs/font-awesome/6.4.0/css/all.min.css",
   "https://www.gstatic.com/firebasejs/10.7.1/firebase-app.js",
   "https://www.gstatic.com/firebasejs/10.7.1/firebase-firestore.js"]

/-- Install handler of the sibling `sw.js` variant: same chain but with no
trailing `.catch`, so a failed `addAll` rejects the `waitUntil` promise and
the install attempt fails. -/
def installSW (f : Fetcher) (cs : CacheStorage) : InstallOut :=
  match addAll f (openCache cs CACHE_NAME_SW) CACHE_NAME_SW SW_ASSETS with
  | Except.ok cs2 =>
    { caches := cs2, assetsCached := true, skipWaitingRequested := true, rejected := false }
  | Except.error _ =>
    { caches := openCache cs CACHE_NAME_SW, assetsCached := false,
      skipWaitingRequested := false, rejected := true }

/-- Activate handler: delete every cache whose name is neither `CACHE_NAME`
nor `DYNAMIC_CACHE`, then claim clients. Only the cache-storage effect is
modelled. -/
def activate (cs : CacheStorage) : CacheStorage :=
  cs.filter (fun c => c.name = CACHE_NAME || c.name = DYNAMIC_CACHE)

/-- Message payload received by the message listener. -/
structure Message where
  action : String
  version : Option String
deriving DecidableEq, Repr

/-- Observable effect emitted by the message listener. -/
inductive Effect where
  | skipWaiting
  | deleteAllCaches
  | postToSource (action : String) (version : String)
deriving DecidableEq, Repr

/-- Message listener: three independent `if` statements on `message.action`
(`'skipWaiting'`, `'CLEAR_CACHE'`, `'versionCheck'`); the last posts
`{ action: 'versionResponse', version: APP_VERSION }` back to `event.source`. -/
def messageHandler (m : Message) : List Effect :=
  (if m.action = "skipWaiting" then [Effect.skipWaiting] else []) ++
  (if m.action = "CLEAR_CACHE" then [Effect.deleteAllCaches] else []) ++
  (if m.action = "versionCheck" then [Effect.postToSource "versionResponse" APP_VERSION] else [])

/-- Structured push payload after a successful `event.data.json()` parse:
the handler reads `data.title`, `data.body`, `data.url`, each possibly
absent. -/
structure JsonPayload where
  title : Option String
  body : Option String
  url : Option String
deriving DecidableEq, Repr

/-- Notification displayed via `self.registration.showNotification`. -/
structure Notification where
  title : String
  body : String
  icon : String
  badge : String
  dataUrl : String
deriving DecidableEq, Repr

/-- Push listener. Input models `event.data` composed with `json()`: `none`
is a push event with no data; `some none` is data whose parse (or subsequent
field access on a non-object value) throws; `some (some d)` is a parsed
payload. The listener has no try/catch, so a throwing `event.data.json()`
escapes the handler (`Except.error`); otherwise it either skips display
(`Except.ok none`) or shows a notification built with the source's
defaults. -/
def pushHandler (data : Option (Option JsonPayload)) : Except Unit (Option Notification) :=
  match data with
  | none => Except.ok none
  | some none => Except.error ()
  | some (some d) =>
    Except.ok (some
      { title := d.title.getD "ShopEasy",
        body := d.body.getD "New update from ShopEasy",
        icon := "logo.png",
        badge := "logo.png",
        dataUrl := d.url.getD "/" })

/-- Entries of the first cache named `DYNAMIC_CACHE` in the storage (the
dynamic store the strategies write into). -/
def dynamicEntries : CacheStorage → List (String × Response)
  | [] => []
  | c :: rest => if c.name = DYNAMIC_CACHE then c.entries else dynamicEntries rest

/-- New entries in the dynamic store after a `cachePut` into it are either old
entries or the written pair. -/
lemma mem_dynamicEntries_cachePut {cs : CacheStorage} {k : String} {v : Response}
    {e : String × Response} (h : e ∈ dynamicEntries (cachePut cs DYNAMIC_CACHE k v)) :
    e ∈ dynamicEntries cs ∨ e = (k, v) := by
  induction cs with
  | nil =>
    simp [cachePut, dynamicEntries] at h
    exact Or.inr h
  | cons c rest ih =>
    by_cases hn : c.name = DYNAMIC_CACHE
    · simp [cachePut, dynamicEntries, hn, putEntry] at h
      rcases h with ⟨he, _⟩ | he
      · exact Or.inl (by simp [dynamicEntries, hn, he])
      · exact Or.inr (by cases e; simp_all)
    · simp [cachePut, dynamicEntries, hn] at h ⊢
      exact ih h

/-- The written pair is present in the dynamic store after a `cachePut` into
it. -/
lemma cachePut_mem_dynamicEntries (cs : CacheStorage) (k : String) (v : Response) :
    (k, v) ∈ dynamicEntries (cachePut cs DYNAMIC_CACHE k v) := by
  induction cs with
  | nil => simp [cachePut, dynamicEntries]
  | cons c rest ih =>
    by_cases hn : c.name = DYNAMIC_CACHE
    · simp [cachePut, dynamicEntries, hn, putEntry]
    · simpa [cachePut, dynamicEntries, hn] using ih

/-- Suffix tests for `.js` and `.css` are mutually exclusive on any URL. -/
lemma strEndsWith_js_not_css (u : String) (h : strEndsWith u ".js" = true) :
    strEndsWith u ".css" = false := by
  unfold strEndsWith at h ⊢
  rw [List.isSuffixOf_iff_suffix] at h
  by_contra hc
  rw [Bool.not_eq_false, List.isSuffixOf_iff_suffix] at hc
  rcases List.suffix_or_suffix_of_suffix h hc with h' | h'
  · exact absurd h' (by decide)
  · exact absurd h' (by decide)

/-- C1: the Strategy Router's classification of intercepted requests is total
(a total Lean function) and deterministic (equal descriptors yield the same
strategy), agrees with the spec's priority-ordered description, and follows
the fixed first-match priority order: non-GET → bypass; Accept containing
HTML → Network-First; stylesheet/script/font extensions → Cache-First; image
extensions → Image-Cache-First; remote-data-store hostnames →
Network-First-With-Store-Update; default → Network-First. -/
theorem c1_router_total_deterministic :
    (∀ r : RequestDescriptor, classify r = routerSpec r) ∧
    (∀ r : RequestDescriptor, r.method ≠ "GET" → classify r = Strategy.bypass) ∧
    (∀ r : RequestDescriptor, r.method = "GET" → acceptsHtml r = true →
      classify r = Strategy.networkFirst) ∧
    (∀ r : RequestDescriptor, r.method = "GET" → acceptsHtml r = false →
      isStaticAssetUrl r.url = true → classify r = Strategy.cacheFirst) ∧
    (∀ r : RequestDescriptor, r.method = "GET" → acceptsHtml r = false →
      isStaticAssetUrl r.url = false → isImageUrl r.url = true →
      classify r = Strategy.imageCacheFirst) ∧
    (∀ r : RequestDescriptor, r.method = "GET" → acceptsHtml r = false →
      isStaticAssetUrl r.url = false → isImageUrl r.url = false →
      isFirebaseHost r.hostname = true →
      classify r = Strategy.networkFirstWithCacheUpdate) ∧
    (∀ r : RequestDescriptor, r.method = "GET" → acceptsHtml r = false →
      isStaticAssetUrl r.url = false → isImageUrl r.url = false →
      isFirebaseHost r.hostname = false → classify r = Strategy.networkFirst) ∧
    (∀ r r' : RequestDescriptor, r = r' → classify r = classify r') := by
  refine ⟨fun r => rfl, ?_, ?_, ?_, ?_, ?_, ?_, ?_⟩
  · intro r h; simp [classify, h]
  · intro r h1 h2; simp [classify, h1, h2]
  · intro r h1 h2 h3; simp [classify, h1, h2, h3]
  · intro r h1 h2 h3 h4; simp [classify, h1, h2, h3, h4]
  · intro r h1 h2 h3 h4 h5; simp [classify, h1, h2, h3, h4, h5]
  · intro r h1 h2 h3 h4 h5; simp [classify, h1, h2, h3, h4, h5]
  · intro r r' h; rw [h]

/-- Witness for C1 at concrete descriptors, one per priority clause. -/
theorem c1_router_total_deterministic_witness :
    classify { method := "POST", url := "https://a.com/x", hostname := "a.com", accept := none }
      = Strategy.bypass ∧
    classify { method := "GET", url := "https://a.com/x", hostname := "a.com",
               accept := some "text/html,application/xhtml+xml" } = Strategy.networkFirst ∧
    classify { method := "GET", url := "https://a.com/m.css", hostname := "a.com", accept := none }
      = Strategy.cacheFirst ∧
    classify { method := "GET", url := "https://a.com/i.png", hostname := "a.com", accept := none }
      = Strategy.imageCacheFirst ∧
    classify { method := "GET", url := "https://firestore.googleapis.com/v1/d",
               hostname := "firestore.googleapis.com", accept := none }
      = Strategy.networkFirstWithCacheUpdate ∧
    classify { method := "GET", url := "https://a.com/api/d", hostname := "a.com", accept := none }
      = Strategy.networkFirst :=
  ⟨c1_router_total_deterministic.2.1 _ (by decide),
   c1_router_total_deterministic.2.2.1 _ rfl (by decide),
   c1_router_total_deterministic.2.2.2.1 _ rfl (by decide) (by decide),
   c1_router_total_deterministic.2.2.2.2.1 _ rfl (by decide) (by decide) (by decide),
   c1_router_total_deterministic.2.2.2.2.2.1 _ rfl (by decide) (by decide) (by decide) (by decide),
   c1_router_total_deterministic.2.2.2.2.2.2.1 _ rfl (by decide) (by decide) (by decide) (by decide)⟩

/-- C4: after the activate step, every surviving cache is either the current
static-generation cache or the dynamic cache (so no prior static generation
remains), and every cache named as the dynamic store survives with its
entries untouched. -/
theorem c4_activate_cleanup (cs : CacheStorage) :
    (∀ c ∈ activate cs, c.name = CACHE_NAME ∨ c.name = DYNAMIC_CACHE) ∧
    (∀ c ∈ cs, c.name = DYNAMIC_CACHE → c ∈ activate cs) := by
  constructor
  · intro c hc
    rw [activate, List.mem_filter] at hc
    have h2 := hc.2
    simp only [Bool.or_eq_true, decide_eq_true_eq] at h2
    exact h2
  · intro c hc h
    rw [activate, List.mem_filter]
    refine ⟨hc, ?_⟩
    simp [h]

/-- Witness for C4: activating over a storage holding a stale `v1.0.0` static
cache and the dynamic cache preserves the dynamic cache with its entry. -/
theorem c4_activate_cleanup_witness :
    (⟨"shopeasy-dynamic-v1", [("k", cssFallback)]⟩ : NamedCache) ∈
      activate [⟨"shopeasy-v1.0.0", []⟩, ⟨"shopeasy-dynamic-v1", [("k", cssFallback)]⟩] :=
  (c4_activate_cleanup _).2 _ (by decide) rfl

/-- C5: Cache-First serves a request whose key has a store entry from the
store with zero network fetches and an unchanged store, and a subsequent
lookup of the same key again performs zero fetches. -/
theorem c5_cacheFirst_hit_no_fetch (f : Fetcher) (cs : CacheStorage)
    (req : RequestDescriptor) (r : Response) (h : cachesMatch cs req.url = some r) :
    cacheFirst f cs req = { outcome := Except.ok (some r), caches := cs, fetches := 0 } ∧
    (cacheFirst f (cacheFirst f cs req).caches req).fetches = 0 := by
  have h1 : cacheFirst f cs req
      = { outcome := Except.ok (some r), caches := cs, fetches := 0 } := by
    simp [cacheFirst, h]
  refine ⟨h1, ?_⟩
  rw [h1]
  simp [cacheFirst, h]

/-- Witness for C5 at a concrete one-entry store. -/
theorem c5_cacheFirst_hit_no_fetch_witness :
    cacheFirst (fun _ => none) [⟨"shopeasy-dynamic-v1", [("https://a.com/m.css", cssFallback)]⟩]
        { method := "GET", url := "https://a.com/m.css", hostname := "a.com", accept := none }
      = { outcome := Except.ok (some cssFallback),
          caches := [⟨"shopeasy-dynamic-v1", [("https://a.com/m.css", cssFallback)]⟩],
          fetches := 0 } ∧
    (cacheFirst (fun _ => none)
        (cacheFirst (fun _ => none)
          [⟨"shopeasy-dynamic-v1", [("https://a.com/m.css", cssFallback)]⟩]
          { method := "GET", url := "https://a.com/m.css", hostname := "a.com",
            accept := none }).caches
        { method := "GET", url := "https://a.com/m.css", hostname := "a.com",
          accept := none }).fetches = 0 :=
  c5_cacheFirst_hit_no_fetch _ _ _ _ (by decide)

/-- C9: a message whose action is the version-query kind (the source's
`'versionCheck'`) makes the handler post back exactly one message, the
version-response payload (`action: 'versionResponse'`, `version:
APP_VERSION`), to the originating context. -/
theorem c9_version_query_response (m : Message) (h : m.action = "versionCheck") :
    messageHandler m = [Effect.postToSource "versionResponse" APP_VERSION] := by
  simp only [messageHandler, h]
  decide

/-- Witness for C9 at a concrete version-query message. -/
theorem c9_version_query_response_witness :
    messageHandler { action := "versionCheck", version := none }
      = [Effect.postToSource "versionResponse" APP_VERSION] :=
  c9_version_query_response _ rfl

/-- Cache storage left by `cacheFirst`: either unchanged, or extended by a
put of a success-status response. -/
lemma cacheFirst_caches (f : Fetcher) (cs : CacheStorage) (req : RequestDescriptor) :
    (cacheFirst f cs req).caches = cs ∨
      ∃ resp, resp.ok = true ∧
        (cacheFirst f cs req).caches = cachePut cs DYNAMIC_CACHE req.url resp := by
  unfold cacheFirst
  split
  · exact Or.inl rfl
  · split
    · split
      · rename_i resp _ hok
        exact Or.inr ⟨resp, hok, rfl⟩
      · exact Or.inl rfl
    · split
      · exact Or.inl rfl
      · split
        · exact Or.inl rfl
        · exact Or.inl rfl

/-- Cache storage left by `imageCacheFirst`: either unchanged, or extended by
a put of a success-status response. -/
lemma imageCacheFirst_caches (f : Fetcher) (cs : CacheStorage) (req : RequestDescriptor) :
    (imageCacheFirst f cs req).caches = cs ∨
      ∃ resp, resp.ok = true ∧
        (imageCacheFirst f cs req).caches = cachePut cs DYNAMIC_CACHE req.url resp := by
  unfold imageCacheFirst
  split
  · exact Or.inl rfl
  · split
    · split
      · rename_i resp _ hok
        exact Or.inr ⟨resp, hok, rfl⟩
      · exact Or.inl rfl
    · split
      · exact Or.inl rfl
      · exact Or.inl rfl

/-- C2 (code bug evidence): with a fetcher failing on the manifest URL
`manifest.json`, the main worker's install handler leaves the `waitUntil`
promise resolved (`rejected = false`) even though the assets were not cached,
because its trailing `.catch` absorbs the `addAll` rejection — so the install
attempt succeeds and the version becomes a candidate, contradicting the
claim's "the install task rejects". The sibling `sw.js` handler, which has no
`.catch`, does reject on the same input. -/
theorem c2_install_failure_swallowed :
    (installP1 (fun u => if u = "manifest.json" then none else some cssFallback) []).rejected
      = false ∧
    (installP1 (fun u => if u = "manifest.json" then none else some cssFallback)
      []).assetsCached = false ∧
    (installP1 (fun u => if u = "manifest.json" then none else some cssFallback)
      []).skipWaitingRequested = false ∧
    (installSW (fun u => if u = "manifest.json" then none else some cssFallback) []).rejected
      = true := by
  refine ⟨rfl, rfl, rfl, rfl⟩

/-- C3 counterexample: `networkFirst` receives a 404 response (whose status
does not indicate success) and still writes it into the dynamic store — the
stored entry for the request key is that 404 response. -/
theorem c3_error_cached_counterexample :
    (cachesMatch
        (networkFirst (fun _ => some { status := 404, contentType := "text/plain", body := "x" })
          [] { method := "GET", url := "https://example.com/a", hostname := "example.com",
               accept := none }).caches
        "https://example.com/a"
      = some { status := 404, contentType := "text/plain", body := "x" }) ∧
    ({ status := 404, contentType := "text/plain", body := "x" } : Response).ok = false := by
  refine ⟨rfl, rfl⟩

/-- C3 amended: Cache-First and Image-Cache-First only add success-status
entries to the dynamic store (every entry afterwards was already present or
has `ok` status), while Network-First and Network-First-With-Store-Update
write whatever response the network returned, unconditionally. -/
theorem c3_success_only_writes_amended (f : Fetcher) (cs : CacheStorage)
    (req : RequestDescriptor) :
    (∀ e ∈ dynamicEntries (cacheFirst f cs req).caches,
      e ∈ dynamicEntries cs ∨ e.2.ok = true) ∧
    (∀ e ∈ dynamicEntries (imageCacheFirst f cs req).caches,
      e ∈ dynamicEntries cs ∨ e.2.ok = true) ∧
    (∀ resp, f req.url = some resp →
      (req.url, resp) ∈ dynamicEntries (networkFirst f cs req).caches) ∧
    (∀ resp, f req.url = some resp →
      (req.url, resp) ∈ dynamicEntries (networkFirstWithCacheUpdate f cs req).caches) := by
  refine ⟨?_, ?_, ?_, ?_⟩
  · intro e he
    rcases cacheFirst_caches f cs req with hcs | ⟨resp, hok, hcs⟩
    · rw [hcs] at he; exact Or.inl he
    · rw [hcs] at he
      rcases mem_dynamicEntries_cachePut he with h | h
      · exact Or.inl h
      · exact Or.inr (by rw [h]; exact hok)
  · intro e he
    rcases imageCacheFirst_caches f cs req with hcs | ⟨resp, hok, hcs⟩
    · rw [hcs] at he; exact Or.inl he
    · rw [hcs] at he
      rcases mem_dynamicEntries_cachePut he with h | h
      · exact Or.inl h
      · exact Or.inr (by rw [h]; exact hok)
  · intro resp hf
    unfold networkFirst
    rw [hf]
    exact cachePut_mem_dynamicEntries cs req.url resp
  · intro resp hf
    unfold networkFirstWithCacheUpdate
    rw [hf]
    exact cachePut_mem_dynamicEntries cs req.url resp

/-- Witness for the amended C3: a success write of Network-First lands in the
dynamic store, and every dynamic entry left by a concrete Cache-First run on
an empty storage has success status. -/
theorem c3_success_only_writes_amended_witness :
    ("https://example.com/a", cssFallback) ∈
      dynamicEntries (networkFirst (fun _ => some cssFallback) []
        { method := "GET", url := "https://example.com/a", hostname := "example.com",
          accept := none }).caches ∧
    (("https://a.com/m.css", cssFallback) ∈
        dynamicEntries (cacheFirst (fun _ => some cssFallback) []
          { method := "GET", url := "https://a.com/m.css", hostname := "a.com",
            accept := none }).caches →
      ("https://a.com/m.css", cssFallback) ∈ dynamicEntries ([] : CacheStorage) ∨
        cssFallback.ok = true) :=
  ⟨(c3_success_only_writes_amended (fun _ => some cssFallback) []
      { method := "GET", url := "https://example.com/a", hostname := "example.com",
        accept := none }).2.2.1 _ rfl,
   fun hm => (c3_success_only_writes_amended (fun _ => some cssFallback) []
      { method := "GET", url := "https://a.com/m.css", hostname := "a.com",
        accept := none }).1 _ hm⟩

/-- C6 counterexample: an image URL matching the external-placeholder pattern
(`postimg.cc`), with no store entry anywhere (empty storage) and a failing
network fetch, makes `imageCacheFirst` resolve with no response
(`caches.match('logo.png')` found nothing) — not a successful image
response. -/
theorem c6_image_fallback_counterexample :
    imageCacheFirst (fun _ => none) []
        { method := "GET", url := "https://i.postimg.cc/item.png", hostname := "i.postimg.cc",
          accept := none }
      = { outcome := Except.ok none, caches := [], fetches := 1 } := by
  rfl

/-- C6 amended: on miss-then-network-failure, an image request whose URL does
not match the external-placeholder patterns always gets the generated SVG
placeholder (success status, image content type); a URL matching those
patterns gets whatever `caches.match('logo.png')` yields — the pinned
placeholder when a `logo.png` entry exists, and no response otherwise. -/
theorem c6_image_fallback_amended (f : Fetcher) (cs : CacheStorage)
    (req : RequestDescriptor) (hmiss : cachesMatch cs req.url = none)
    (hnet : f req.url = none) :
    (isExternalPlaceholderUrl req.url = false →
      imageCacheFirst f cs req
        = { outcome := Except.ok (some svgPlaceholder), caches := cs, fetches := 1 } ∧
      svgPlaceholder.ok = true ∧ svgPlaceholder.contentType = "image/svg+xml") ∧
    (isExternalPlaceholderUrl req.url = true →
      (imageCacheFirst f cs req).outcome = Except.ok (cachesMatch cs "logo.png")) := by
  constructor
  · intro h
    refine ⟨?_, rfl, rfl⟩
    simp [imageCacheFirst, hmiss, hnet, h]
  · intro h
    simp [imageCacheFirst, hmiss, hnet, h]

/-- Witness for the amended C6 at a concrete non-placeholder image URL. -/
theorem c6_image_fallback_amended_witness :
    imageCacheFirst (fun _ => none) []
        { method := "GET", url := "https://a.com/product.png", hostname := "a.com",
          accept := none }
      = { outcome := Except.ok (some svgPlaceholder), caches := [], fetches := 1 } :=
  ((c6_image_fallback_amended (fun _ => none) []
      { method := "GET", url := "https://a.com/product.png", hostname := "a.com",
        accept := none } rfl rfl).1 (by decide)).1

/-- C7: on a store miss with a failing network fetch, Cache-First returns the
empty-stylesheet fallback for `.css` requests and the no-op-script fallback
for `.js` requests, and never rejects for these two asset classes. -/
theorem c7_cacheFirst_fallback (f : Fetcher) (cs : CacheStorage)
    (req : RequestDescriptor) (hmiss : cachesMatch cs req.url = none)
    (hnet : f req.url = none) :
    (strEndsWith req.url ".css" = true →
      cacheFirst f cs req
        = { outcome := Except.ok (some cssFallback), caches := cs, fetches := 1 }) ∧
    (strEndsWith req.url ".js" = true →
      cacheFirst f cs req
        = { outcome := Except.ok (some jsFallback), caches := cs, fetches := 1 }) ∧
    (strEndsWith req.url ".css" = true ∨ strEndsWith req.url ".js" = true →
      (cacheFirst f cs req).outcome ≠ Except.error ()) := by
  have hcss : strEndsWith req.url ".css" = true →
      cacheFirst f cs req
        = { outcome := Except.ok (some cssFallback), caches := cs, fetches := 1 } := by
    intro h
    simp [cacheFirst, hmiss, hnet, h]
  have hjs : strEndsWith req.url ".js" = true →
      cacheFirst f cs req
        = { outcome := Except.ok (some jsFallback), caches := cs, fetches := 1 } := by
    intro h
    simp [cacheFirst, hmiss, hnet, h, strEndsWith_js_not_css req.url h]
  refine ⟨hcss, hjs, ?_⟩
  rintro (h | h)
  · rw [hcss h]; intro hc; cases hc
  · rw [hjs h]; intro hc; cases hc

/-- Witness for C7 at concrete stylesheet and script URLs. -/
theorem c7_cacheFirst_fallback_witness :
    cacheFirst (fun _ => none) []
        { method := "GET", url := "https://a.com/m.css", hostname := "a.com", accept := none }
      = { outcome := Except.ok (some cssFallback), caches := [], fetches := 1 } ∧
    cacheFirst (fun _ => none) []
        { method := "GET", url := "https://a.com/m.js", hostname := "a.com", accept := none }
      = { outcome := Except.ok (some jsFallback), caches := [], fetches := 1 } :=
  ⟨(c7_cacheFirst_fallback (fun _ => none) []
      { method := "GET", url := "https://a.com/m.css", hostname := "a.com", accept := none }
      rfl rfl).1 (by decide),
   (c7_cacheFirst_fallback (fun _ => none) []
      { method := "GET", url := "https://a.com/m.js", hostname := "a.com", accept := none }
      rfl rfl).2.1 (by decide)⟩

/-- C8 counterexample: a push event whose data is present but not parseable
makes the handler throw (the uncaught `event.data.json()` exception escapes),
instead of skipping the notification display without crashing. -/
theorem c8_push_counterexample : pushHandler (some none) = Except.error () := by
  rfl

/-- C8 amended: a push event with no data skips display without error; a
parseable payload displays a notification carrying the target URL (defaulted
to `/`) as associated data; a payload whose parse fails lets the parse
exception escape the handler (display is skipped but the handler crashes). -/
theorem c8_push_amended :
    pushHandler none = Except.ok none ∧
    (∀ d : JsonPayload, pushHandler (some (some d))
      = Except.ok (some
          { title := d.title.getD "ShopEasy",
            body := d.body.getD "New update from ShopEasy",
            icon := "logo.png", badge := "logo.png",
            dataUrl := d.url.getD "/" })) ∧
    pushHandler (some none) = Except.error () := by
  exact ⟨rfl, fun d => rfl, rfl⟩

/-- C10: whenever an install run caches all assets successfully, it requests
`skipWaiting` as its final step — unconditionally, with no flag or message
consulted — in both the main worker and the sibling `sw.js` variant. -/
theorem c10_install_always_skipwaiting (f : Fetcher) (cs : CacheStorage) :
    ((installP1 f cs).assetsCached = true → (installP1 f cs).skipWaitingRequested = true) ∧
    ((installSW f cs).assetsCached = true → (installSW f cs).skipWaitingRequested = true) := by
  constructor
  · intro h
    unfold installP1 at h ⊢
    cases haa : addAll f (openCache cs CACHE_NAME) CACHE_NAME STATIC_ASSETS with
    | ok cs2 => rfl
    | error e => rw [haa] at h; simp at h
  · intro h
    unfold installSW at h ⊢
    cases haa : addAll f (openCache cs CACHE_NAME_SW) CACHE_NAME_SW SW_ASSETS with
    | ok cs2 => rfl
    | error e => rw [haa] at h; simp at h

/-- Witness for C10 with a fetcher that resolves every manifest URL. -/
theorem c10_install_always_skipwaiting_witness :
    (installP1 (fun _ => some cssFallback) []).skipWaitingRequested = true ∧
    (installSW (fun _ => some cssFallback) []).skipWaitingRequested = true :=
  ⟨(c10_install_always_skipwaiting _ _).1 rfl,
   (c10_install_always_skipwaiting _ _).2 rfl⟩

end ShopEasy
